import Mathlib

/-!
Shallow embedding of the ADC 6-channel acquisition modules:
`Core/Src/adc_conversions.c` (validated blocking engine),
`Core/Src/adc_coversions.c` (legacy blocking engine), and
`Core/Src/adc_dma_conversion.c` (asynchronous scatter/DMA engine).

Hardware (HAL) calls are modelled by an oracle that fixes the status each
HAL primitive would return and the value `HAL_ADC_GetValue` would produce;
each engine function becomes a pure Lean function from the oracle and the
module's global state to the updated state (plus return value and, where the
ordering of internal steps matters, an event trace). `uint32_t` counters are
Nat with arithmetic taken modulo 2^32, matching C unsigned wraparound;
`uint8_t` channel ids are Nat (the C parameter's value). C arrays are total
maps `Nat → Nat` so that an out-of-bounds store is representable exactly as
the C write to that index.
-/

/-- Modulus of `uint32_t` arithmetic. -/
def UINT32_MOD : Nat := 4294967296

/-- HAL status codes (`HAL_StatusTypeDef` from the STM32 HAL). -/
inductive HAL_StatusTypeDef where
  | HAL_OK
  | HAL_ERROR
  | HAL_BUSY
  | HAL_TIMEOUT
deriving DecidableEq, Repr

open HAL_StatusTypeDef

/-- Pointwise update of a C array modelled as a total map; `updateArr a i v`
is the state of the array after the store `a[i] = v`. -/
def updateArr (a : Nat → Nat) (i v : Nat) : Nat → Nat :=
  fun j => if j = i then v else a j

/-! ## Blocking engine (`adc_conversions.c`) -/

/-- Number of channels, `ADC_CONVERSIONS_CHANNEL_COUNT`. -/
def ADC_CONVERSIONS_CHANNEL_COUNT : Nat := 6

/-- Sentinel `ADC_ERROR_INVALID_CHANNEL` (declared, never stored by the
validated engine). -/
def ADC_ERROR_INVALID_CHANNEL : Nat := 0xFFFF

/-- Sentinel `ADC_ERROR_CONFIG` stored on a failed channel configuration. -/
def ADC_ERROR_CONFIG : Nat := 0xFFFE

/-- Sentinel `ADC_ERROR_START` stored on a failed conversion start. -/
def ADC_ERROR_START : Nat := 0xFFFD

/-- Sentinel `ADC_ERROR_TIMEOUT` stored on a failed poll-for-conversion. -/
def ADC_ERROR_TIMEOUT : Nat := 0xFFFC

/-- Error-tracking record `ADC_ErrorInfo_t`: `total_errors` is a `uint32_t`
counter (kept modulo 2^32 by the operations), `last_failed_channel` a
`uint8_t` (0xFF meaning "none"). -/
structure ADC_ErrorInfo_t where
  total_errors : Nat
  last_error_status : HAL_StatusTypeDef
  last_failed_channel : Nat
deriving DecidableEq, Repr

/-- Initial value of the static `adc_errors` variable. -/
def adc_errors_init : ADC_ErrorInfo_t :=
  { total_errors := 0, last_error_status := HAL_OK, last_failed_channel := 0xFF }

/-- Global mutable state of the blocking engine: the sample array
`raw_LISXXXALH` (as a total map, so out-of-bounds stores are expressible)
and the error tracker `adc_errors`. -/
structure AdcModuleState where
  raw_LISXXXALH : Nat → Nat
  adc_errors : ADC_ErrorInfo_t

/-- Hardware oracle for one blocking acquisition: the status each HAL call
would return (each is called at most once per acquisition) and the value
`HAL_ADC_GetValue` would read. -/
structure HWOracle where
  configStatus : HAL_StatusTypeDef
  startStatus : HAL_StatusTypeDef
  pollStatus : HAL_StatusTypeDef
  value : Nat
deriving DecidableEq, Repr

/-- Oracle in which every HAL call succeeds. -/
def hwAllOK (v : Nat) : HWOracle :=
  { configStatus := HAL_OK, startStatus := HAL_OK, pollStatus := HAL_OK, value := v }

/-- Result of one blocking acquisition: the new module state and whether
`HAL_ADC_Stop` was invoked during the call. -/
structure OpResult where
  st : AdcModuleState
  stopCalled : Bool

/-- Error recording step shared by every failure branch of
`analogSensor_operation`: increment `total_errors` (uint32 wrap), overwrite
`last_error_status` and `last_failed_channel`. -/
def recordError (status : HAL_StatusTypeDef) (ch : Nat) (e : ADC_ErrorInfo_t) :
    ADC_ErrorInfo_t :=
  { total_errors := (e.total_errors + 1) % UINT32_MOD,
    last_error_status := status,
    last_failed_channel := ch }

/-- Embedding of `analogSensor_operation` from `adc_conversions.c` (the
validated variant): reject out-of-range ids recording an error; otherwise
configure, start, poll, read, with the matching sentinel stored and the
failure recorded on each failing step; `HAL_ADC_Stop` is called exactly on
the poll-failure and success paths. -/
def analogSensor_operation (hw : HWOracle) (snsrID : Nat) (s : AdcModuleState) :
    OpResult :=
  if ADC_CONVERSIONS_CHANNEL_COUNT ≤ snsrID then
    { st := { s with adc_errors := recordError HAL_ERROR snsrID s.adc_errors },
      stopCalled := false }
  else if hw.configStatus ≠ HAL_OK then
    { st := { raw_LISXXXALH := updateArr s.raw_LISXXXALH snsrID ADC_ERROR_CONFIG,
              adc_errors := recordError hw.configStatus snsrID s.adc_errors },
      stopCalled := false }
  else if hw.startStatus ≠ HAL_OK then
    { st := { raw_LISXXXALH := updateArr s.raw_LISXXXALH snsrID ADC_ERROR_START,
              adc_errors := recordError hw.startStatus snsrID s.adc_errors },
      stopCalled := false }
  else if hw.pollStatus ≠ HAL_OK then
    { st := { raw_LISXXXALH := updateArr s.raw_LISXXXALH snsrID ADC_ERROR_TIMEOUT,
              adc_errors := recordError hw.pollStatus snsrID s.adc_errors },
      stopCalled := true }
  else
    { st := { s with raw_LISXXXALH := updateArr s.raw_LISXXXALH snsrID hw.value },
      stopCalled := true }

/-- Embedding of `analogSensor_operation_all_channels`: clamp the channel
count to 6, then run `analogSensor_operation` on channels `0..count-1` in
order. The oracle is indexed by channel so each per-channel call can have
its own hardware outcome. -/
def analogSensor_operation_all_channels (hw : Nat → HWOracle) (total_channels : Nat)
    (s : AdcModuleState) : AdcModuleState :=
  (List.range (min total_channels ADC_CONVERSIONS_CHANNEL_COUNT)).foldl
    (fun st i => (analogSensor_operation (hw i) i st).st) s

/-- Embedding of `analogSensor_getErrorCount`. -/
def analogSensor_getErrorCount (s : AdcModuleState) : Nat :=
  s.adc_errors.total_errors

/-- Embedding of `analogSensor_getErrors`: a null destination yields
`HAL_ERROR` and no copy; otherwise the tracker is copied out. The module
state is not modified (the function only reads `adc_errors`). -/
def analogSensor_getErrors (dest_is_null : Bool) (s : AdcModuleState) :
    HAL_StatusTypeDef × Option ADC_ErrorInfo_t :=
  if dest_is_null then (HAL_ERROR, none) else (HAL_OK, some s.adc_errors)

/-- Embedding of `analogSensor_resetErrors`: zero the counter, clear the
status, restore the 0xFF "none" channel sentinel. -/
def analogSensor_resetErrors (s : AdcModuleState) : AdcModuleState :=
  { s with adc_errors := adc_errors_init }

/-! ## Legacy blocking engine (`adc_coversions.c`)

The legacy file defines its own `analogSensor_operation`; the Lean name
carries a `_legacy` suffix because the validated variant already uses the
source name. -/

/-- Channel selected by the legacy `if`/`else if` chain: ids 0..4 map to
channels 1..5, and every other id falls into the final `else`, channel 6. -/
def legacySelectChannel (snsrID : Nat) : Nat :=
  if snsrID = 0 then 1
  else if snsrID = 1 then 2
  else if snsrID = 2 then 3
  else if snsrID = 3 then 4
  else if snsrID = 4 then 5
  else 6

/-- Result of the legacy acquisition: the sample array after the call and
the ADC channel the selector chain picked. -/
structure LegacyOpResult where
  raw : Nat → Nat
  channel : Nat

/-- Embedding of the legacy `analogSensor_operation` from `adc_coversions.c`:
no range check and no status checks — it selects a channel, runs the HAL
sequence ignoring every returned status, and unconditionally stores
`HAL_ADC_GetValue` at index `snsrID` of `raw_LISXXXALH`. -/
def analogSensor_operation_legacy (hw : HWOracle) (snsrID : Nat) (raw : Nat → Nat) :
    LegacyOpResult :=
  { raw := updateArr raw snsrID hw.value, channel := legacySelectChannel snsrID }

/-! ## Asynchronous DMA engine (`adc_dma_conversion.c`) -/

/-- Number of channels, `ADC_DMA_CHANNEL_COUNT`. -/
def ADC_DMA_CHANNEL_COUNT : Nat := 6

/-- Error code `ADC_DMA_ERROR_INVALID_CHANNEL` returned for an out-of-range
channel id. -/
def ADC_DMA_ERROR_INVALID_CHANNEL : Nat := 0xFFFF

/-- Error code `ADC_DMA_ERROR_NOT_COMPLETE` returned while no completed
conversion is available. -/
def ADC_DMA_ERROR_NOT_COMPLETE : Nat := 0xFFFE

/-- Error code `ADC_DMA_ERROR_DMA_FAILED` returned in the error state. -/
def ADC_DMA_ERROR_DMA_FAILED : Nat := 0xFFFD

/-- Conversion state machine enumeration `ADC_DMA_StateTypeDef`. -/
inductive ADC_DMA_StateTypeDef where
  | ADC_DMA_STATE_IDLE
  | ADC_DMA_STATE_CONVERTING
  | ADC_DMA_STATE_COMPLETE
  | ADC_DMA_STATE_ERROR
deriving DecidableEq, Repr

open ADC_DMA_StateTypeDef

/-- Global mutable state of the DMA module: the state cell `adc_dma_state`,
the DMA sample buffer, and the two `uint32_t` statistics counters. -/
structure DmaModuleState where
  adc_dma_state : ADC_DMA_StateTypeDef
  dma_adc_buffer : Nat → Nat
  dma_conversion_count : Nat
  dma_error_count : Nat

/-- Internal events of `analogSensor_startConversion_DMA`, recorded in
program order so that the write to the state cell can be compared with the
moment the hardware scatter-start call is issued. -/
inductive DMAEvent where
  | setState (st : ADC_DMA_StateTypeDef)
  | hwStartDMA
deriving DecidableEq, Repr

/-- Result of `analogSensor_startConversion_DMA`: trace of internal events
in program order, the new module state, and the returned HAL status. -/
structure StartResult where
  trace : List DMAEvent
  st : DmaModuleState
  ret : HAL_StatusTypeDef

/-- Embedding of `analogSensor_startConversion_DMA`, parameterised by the
status `HAL_ADC_Start_DMA` would return. While `adc_dma_state` is
`CONVERTING` it returns `HAL_BUSY` having touched nothing; otherwise it
writes `CONVERTING` into the state cell, then issues the hardware start
(event order as in the source), and on failure forces the state to
`ERROR`, bumps the error counter and propagates the status, while on
success it bumps the conversion counter and returns `HAL_OK`. -/
def analogSensor_startConversion_DMA (startStatus : HAL_StatusTypeDef)
    (s : DmaModuleState) : StartResult :=
  if s.adc_dma_state = ADC_DMA_STATE_CONVERTING then
    { trace := [], st := s, ret := HAL_BUSY }
  else
    let s1 := { s with adc_dma_state := ADC_DMA_STATE_CONVERTING }
    if startStatus ≠ HAL_OK then
      { trace := [DMAEvent.setState ADC_DMA_STATE_CONVERTING, DMAEvent.hwStartDMA,
                  DMAEvent.setState ADC_DMA_STATE_ERROR],
        st := { s1 with adc_dma_state := ADC_DMA_STATE_ERROR,
                        dma_error_count := (s1.dma_error_count + 1) % UINT32_MOD },
        ret := startStatus }
    else
      { trace := [DMAEvent.setState ADC_DMA_STATE_CONVERTING, DMAEvent.hwStartDMA],
        st := { s1 with
                dma_conversion_count := (s1.dma_conversion_count + 1) % UINT32_MOD },
        ret := HAL_OK }

/-- Embedding of `analogSensor_isConversionComplete`. -/
def analogSensor_isConversionComplete (s : DmaModuleState) : Nat :=
  if s.adc_dma_state = ADC_DMA_STATE_COMPLETE then 1 else 0

/-- Embedding of `analogSensor_getDMAState`. -/
def analogSensor_getDMAState (s : DmaModuleState) : ADC_DMA_StateTypeDef :=
  s.adc_dma_state

/-- Embedding of `analogSensor_getChannelValue`: a pure read — it validates
the channel id first, then dispatches on the state cell before reading the
buffer, and modifies neither. -/
def analogSensor_getChannelValue (channel_id : Nat) (s : DmaModuleState) : Nat :=
  if ADC_DMA_CHANNEL_COUNT ≤ channel_id then
    ADC_DMA_ERROR_INVALID_CHANNEL
  else if s.adc_dma_state ≠ ADC_DMA_STATE_COMPLETE then
    if s.adc_dma_state = ADC_DMA_STATE_ERROR then
      ADC_DMA_ERROR_DMA_FAILED
    else
      ADC_DMA_ERROR_NOT_COMPLETE
  else
    s.dma_adc_buffer channel_id

/-- Embedding of `analogSensor_resetDMAState`: force the state cell to
`IDLE` from any state. -/
def analogSensor_resetDMAState (s : DmaModuleState) : DmaModuleState :=
  { s with adc_dma_state := ADC_DMA_STATE_IDLE }

/-- Embedding of `analogSensor_stopConversion_DMA`, parameterised by the
status `HAL_ADC_Stop_DMA` would return: the state cell is forced to `IDLE`
whatever that status is, and the status is returned. -/
def analogSensor_stopConversion_DMA (abortStatus : HAL_StatusTypeDef)
    (s : DmaModuleState) : DmaModuleState × HAL_StatusTypeDef :=
  ({ s with adc_dma_state := ADC_DMA_STATE_IDLE }, abortStatus)

/-- Embedding of `HAL_ADC_ErrorCallback`: when the notifying instance is
ADC1, set the state cell to `ERROR` and bump the error counter (the
hardware abort it also issues touches only the hardware collaborator);
otherwise do nothing. -/
def HAL_ADC_ErrorCallback (instance_is_ADC1 : Bool) (s : DmaModuleState) :
    DmaModuleState :=
  if instance_is_ADC1 then
    { s with adc_dma_state := ADC_DMA_STATE_ERROR,
             dma_error_count := (s.dma_error_count + 1) % UINT32_MOD }
  else s

/-- Embedding of `HAL_ADC_ConvCpltCallback`: for the ADC1 instance,
unconditionally mark the conversion complete. -/
def HAL_ADC_ConvCpltCallback (instance_is_ADC1 : Bool) (s : DmaModuleState) :
    DmaModuleState :=
  if instance_is_ADC1 then
    { s with adc_dma_state := ADC_DMA_STATE_COMPLETE }
  else s

/-- Invariant of the blocking engine's error tracker: a zero error total
forces the "none" channel sentinel. -/
def ErrInvariant (e : ADC_ErrorInfo_t) : Prop :=
  e.total_errors = 0 → e.last_failed_channel = 0xFF

/-! ## Sample concrete states used by witnesses and counterexamples -/

/-- Concrete DMA module state that is mid-conversion. -/
def sConvSample : DmaModuleState :=
  { adc_dma_state := ADC_DMA_STATE_CONVERTING, dma_adc_buffer := fun _ => 0,
    dma_conversion_count := 3, dma_error_count := 4 }

/-- Concrete DMA module state at rest (freshly initialised globals). -/
def sIdleSample : DmaModuleState :=
  { adc_dma_state := ADC_DMA_STATE_IDLE, dma_adc_buffer := fun _ => 0,
    dma_conversion_count := 0, dma_error_count := 0 }

/-- Concrete DMA module state holding completed data. -/
def sCompleteSample : DmaModuleState :=
  { adc_dma_state := ADC_DMA_STATE_COMPLETE, dma_adc_buffer := fun i => 10 * i,
    dma_conversion_count := 1, dma_error_count := 0 }

/-- Concrete blocking-module state (freshly initialised globals). -/
def sAdc0 : AdcModuleState :=
  { raw_LISXXXALH := fun _ => 0, adc_errors := adc_errors_init }

/-- Concrete blocking-module state whose 32-bit error counter sits at its
maximum value, one increment away from wrapping. -/
def sWrap : AdcModuleState :=
  { raw_LISXXXALH := fun _ => 0,
    adc_errors := { total_errors := 4294967295, last_error_status := HAL_OK,
                    last_failed_channel := 3 } }

/-- Oracle whose channel-configuration call fails. -/
def hwCfgFail : HWOracle :=
  { configStatus := HAL_ERROR, startStatus := HAL_OK, pollStatus := HAL_OK, value := 0 }

/-! ## Theorems for the claims -/

/-- C1: from any state of the asynchronous engine whose conversion state is
`CONVERTING`, `analogSensor_startConversion_DMA` returns `HAL_BUSY` and has
no side effects: the state cell stays `CONVERTING`, the sample buffer is
unchanged, and the start and error counters are unchanged. -/
theorem C1_start_while_converting_busy_no_side_effects
    (startStatus : HAL_StatusTypeDef) (s : DmaModuleState)
    (h : s.adc_dma_state = ADC_DMA_STATE_CONVERTING) :
    (analogSensor_startConversion_DMA startStatus s).ret = HAL_BUSY ∧
    (analogSensor_startConversion_DMA startStatus s).st.adc_dma_state =
      ADC_DMA_STATE_CONVERTING ∧
    (∀ i, (analogSensor_startConversion_DMA startStatus s).st.dma_adc_buffer i =
      s.dma_adc_buffer i) ∧
    (analogSensor_startConversion_DMA startStatus s).st.dma_conversion_count =
      s.dma_conversion_count ∧
    (analogSensor_startConversion_DMA startStatus s).st.dma_error_count =
      s.dma_error_count := by
  unfold analogSensor_startConversion_DMA
  rw [if_pos h]
  exact ⟨rfl, h, fun i => rfl, rfl, rfl⟩

/-- Witness for C1 at a concrete mid-conversion state. -/
theorem C1_witness :
    (analogSensor_startConversion_DMA HAL_OK sConvSample).ret = HAL_BUSY ∧
    (analogSensor_startConversion_DMA HAL_OK sConvSample).st.adc_dma_state =
      ADC_DMA_STATE_CONVERTING ∧
    (∀ i, (analogSensor_startConversion_DMA HAL_OK sConvSample).st.dma_adc_buffer i =
      sConvSample.dma_adc_buffer i) ∧
    (analogSensor_startConversion_DMA HAL_OK sConvSample).st.dma_conversion_count =
      sConvSample.dma_conversion_count ∧
    (analogSensor_startConversion_DMA HAL_OK sConvSample).st.dma_error_count =
      sConvSample.dma_error_count :=
  C1_start_while_converting_busy_no_side_effects HAL_OK sConvSample rfl

/-- C2: starting from any state other than `CONVERTING`, the state cell is
written to `CONVERTING` strictly before the hardware scatter-start call is
issued (first two trace events); if the hardware call fails the state is
forced to `ERROR`, the error counter is bumped by one (uint32), the start
counter is unchanged and the failure status is returned; if it succeeds the
start counter is bumped by one and `HAL_OK` is returned. -/
theorem C2_start_from_nonconverting (startStatus : HAL_StatusTypeDef)
    (s : DmaModuleState) (h : s.adc_dma_state ≠ ADC_DMA_STATE_CONVERTING) :
    (analogSensor_startConversion_DMA startStatus s).trace.take 2 =
      [DMAEvent.setState ADC_DMA_STATE_CONVERTING, DMAEvent.hwStartDMA] ∧
    (startStatus ≠ HAL_OK →
      (analogSensor_startConversion_DMA startStatus s).st.adc_dma_state =
        ADC_DMA_STATE_ERROR ∧
      (analogSensor_startConversion_DMA startStatus s).st.dma_error_count =
        (s.dma_error_count + 1) % UINT32_MOD ∧
      (analogSensor_startConversion_DMA startStatus s).st.dma_conversion_count =
        s.dma_conversion_count ∧
      (analogSensor_startConversion_DMA startStatus s).ret = startStatus) ∧
    (startStatus = HAL_OK →
      (analogSensor_startConversion_DMA startStatus s).st.dma_conversion_count =
        (s.dma_conversion_count + 1) % UINT32_MOD ∧
      (analogSensor_startConversion_DMA startStatus s).ret = HAL_OK) := by
  unfold analogSensor_startConversion_DMA
  rw [if_neg h]
  by_cases hs : startStatus = HAL_OK
  · subst hs
    simp
  · simp [hs]

/-- Witness for C2 at a concrete idle state with a failing hardware start. -/
theorem C2_witness :
    (analogSensor_startConversion_DMA HAL_ERROR sIdleSample).trace.take 2 =
      [DMAEvent.setState ADC_DMA_STATE_CONVERTING, DMAEvent.hwStartDMA] ∧
    (HAL_ERROR ≠ HAL_OK →
      (analogSensor_startConversion_DMA HAL_ERROR sIdleSample).st.adc_dma_state =
        ADC_DMA_STATE_ERROR ∧
      (analogSensor_startConversion_DMA HAL_ERROR sIdleSample).st.dma_error_count =
        (sIdleSample.dma_error_count + 1) % UINT32_MOD ∧
      (analogSensor_startConversion_DMA HAL_ERROR sIdleSample).st.dma_conversion_count =
        sIdleSample.dma_conversion_count ∧
      (analogSensor_startConversion_DMA HAL_ERROR sIdleSample).ret = HAL_ERROR) ∧
    (HAL_ERROR = HAL_OK →
      (analogSensor_startConversion_DMA HAL_ERROR sIdleSample).st.dma_conversion_count =
        (sIdleSample.dma_conversion_count + 1) % UINT32_MOD ∧
      (analogSensor_startConversion_DMA HAL_ERROR sIdleSample).ret = HAL_OK) :=
  C2_start_from_nonconverting HAL_ERROR sIdleSample (by decide)

/-- C3: `analogSensor_getChannelValue` returns the `InvalidChannel` code for
any id at or above 6; for an in-range id it returns the `NotComplete` code
in the `IDLE` and `CONVERTING` states, the DMA-failed code in the `ERROR`
state, and the buffered value in the `COMPLETE` state. It is a pure read:
the embedding returns only a value, modifying neither state cell nor
buffer. -/
theorem C3_getChannelValue_cases (channel_id : Nat) (s : DmaModuleState) :
    (ADC_DMA_CHANNEL_COUNT ≤ channel_id →
      analogSensor_getChannelValue channel_id s = ADC_DMA_ERROR_INVALID_CHANNEL) ∧
    (channel_id < ADC_DMA_CHANNEL_COUNT →
      (s.adc_dma_state = ADC_DMA_STATE_IDLE ∨
        s.adc_dma_state = ADC_DMA_STATE_CONVERTING) →
      analogSensor_getChannelValue channel_id s = ADC_DMA_ERROR_NOT_COMPLETE) ∧
    (channel_id < ADC_DMA_CHANNEL_COUNT →
      s.adc_dma_state = ADC_DMA_STATE_ERROR →
      analogSensor_getChannelValue channel_id s = ADC_DMA_ERROR_DMA_FAILED) ∧
    (channel_id < ADC_DMA_CHANNEL_COUNT →
      s.adc_dma_state = ADC_DMA_STATE_COMPLETE →
      analogSensor_getChannelValue channel_id s = s.dma_adc_buffer channel_id) := by
  unfold analogSensor_getChannelValue
  refine ⟨fun h6 => by rw [if_pos h6], fun h6 hst => ?_, fun h6 hst => ?_, fun h6 hst => ?_⟩
  · rw [if_neg (not_le.mpr h6)]
    rcases hst with hst | hst <;> rw [hst] <;> simp
  · rw [if_neg (not_le.mpr h6), hst]
    simp
  · rw [if_neg (not_le.mpr h6), hst]
    simp

/-- Witness for C3 reading channel 2 of a concrete completed conversion. -/
theorem C3_witness :
    analogSensor_getChannelValue 2 sCompleteSample =
      sCompleteSample.dma_adc_buffer 2 :=
  (C3_getChannelValue_cases 2 sCompleteSample).2.2.2 (by decide) rfl

/-- C7: `analogSensor_stopConversion_DMA` leaves the state cell `IDLE` from
any state whatever status the hardware abort reports, and returns that
status; `analogSensor_resetDMAState` likewise forces `IDLE` from any
state. -/
theorem C7_stop_and_reset_force_idle (abortStatus : HAL_StatusTypeDef)
    (s : DmaModuleState) :
    (analogSensor_stopConversion_DMA abortStatus s).1.adc_dma_state =
      ADC_DMA_STATE_IDLE ∧
    (analogSensor_stopConversion_DMA abortStatus s).2 = abortStatus ∧
    (analogSensor_resetDMAState s).adc_dma_state = ADC_DMA_STATE_IDLE :=
  ⟨rfl, rfl, rfl⟩

/-- C4 counterexample: after an accepted start on a fresh state followed by
the ADC1 error notification, reading channel id 6 returns the
`InvalidChannel` code, not the `DmaError` code — so `getChannelValue` does
not return `DmaError` for arbitrary channel ids as the claim states. -/
theorem C4_counterexample :
    (analogSensor_startConversion_DMA HAL_OK sIdleSample).ret = HAL_OK ∧
    analogSensor_getChannelValue 6
      (HAL_ADC_ErrorCallback true
        (analogSensor_startConversion_DMA HAL_OK sIdleSample).st) =
      ADC_DMA_ERROR_INVALID_CHANNEL ∧
    ADC_DMA_ERROR_INVALID_CHANNEL ≠ ADC_DMA_ERROR_DMA_FAILED :=
  ⟨rfl, rfl, by decide⟩

/-- C4 (amended): after an accepted `analogSensor_startConversion_DMA` (the
state was not `CONVERTING` and the hardware start succeeded) followed by the
ADC1 error notification and before any read, `analogSensor_getDMAState`
reports `ERROR`, `analogSensor_getChannelValue` returns the `DmaError` code
for every in-range channel id (out-of-range ids still get `InvalidChannel`),
and the error statistic is one above its value before the start. -/
theorem C4_amended_error_callback_after_accepted_start (s : DmaModuleState)
    (h : s.adc_dma_state ≠ ADC_DMA_STATE_CONVERTING) :
    (analogSensor_startConversion_DMA HAL_OK s).ret = HAL_OK ∧
    analogSensor_getDMAState
      (HAL_ADC_ErrorCallback true (analogSensor_startConversion_DMA HAL_OK s).st) =
      ADC_DMA_STATE_ERROR ∧
    (∀ channel_id, channel_id < ADC_DMA_CHANNEL_COUNT →
      analogSensor_getChannelValue channel_id
        (HAL_ADC_ErrorCallback true (analogSensor_startConversion_DMA HAL_OK s).st) =
        ADC_DMA_ERROR_DMA_FAILED) ∧
    (HAL_ADC_ErrorCallback true
        (analogSensor_startConversion_DMA HAL_OK s).st).dma_error_count =
      (s.dma_error_count + 1) % UINT32_MOD := by
  unfold analogSensor_startConversion_DMA HAL_ADC_ErrorCallback
  rw [if_neg h]
  refine ⟨rfl, rfl, fun channel_id h6 => ?_, rfl⟩
  unfold analogSensor_getChannelValue
  rw [if_neg (not_le.mpr h6)]
  simp

/-- Witness for C4 (amended) starting from a concrete idle state. -/
theorem C4_amended_witness :
    (analogSensor_startConversion_DMA HAL_OK sIdleSample).ret = HAL_OK ∧
    analogSensor_getDMAState
      (HAL_ADC_ErrorCallback true
        (analogSensor_startConversion_DMA HAL_OK sIdleSample).st) =
      ADC_DMA_STATE_ERROR ∧
    (∀ channel_id, channel_id < ADC_DMA_CHANNEL_COUNT →
      analogSensor_getChannelValue channel_id
        (HAL_ADC_ErrorCallback true
          (analogSensor_startConversion_DMA HAL_OK sIdleSample).st) =
        ADC_DMA_ERROR_DMA_FAILED) ∧
    (HAL_ADC_ErrorCallback true
        (analogSensor_startConversion_DMA HAL_OK sIdleSample).st).dma_error_count =
      (sIdleSample.dma_error_count + 1) % UINT32_MOD :=
  C4_amended_error_callback_after_accepted_start sIdleSample (by decide)

/-- C5: for any in-range channel, a config failure stores the 0xFFFE
sentinel in that slot, a start failure stores 0xFFFD, a poll failure stores
0xFFFC and stops the hardware; in each failure case the error total is
bumped by one (uint32) and the last-status and last-failed-channel fields
record that failure; on success the converted value lands in the slot, the
hardware is stopped and the error tracker is untouched. -/
theorem C5_blocking_acquire_outcomes (hw : HWOracle) (snsrID : Nat)
    (s : AdcModuleState) (h : snsrID < ADC_CONVERSIONS_CHANNEL_COUNT) :
    (hw.configStatus ≠ HAL_OK →
      (analogSensor_operation hw snsrID s).st.raw_LISXXXALH snsrID = ADC_ERROR_CONFIG ∧
      (analogSensor_operation hw snsrID s).st.adc_errors.total_errors =
        (s.adc_errors.total_errors + 1) % UINT32_MOD ∧
      (analogSensor_operation hw snsrID s).st.adc_errors.last_error_status =
        hw.configStatus ∧
      (analogSensor_operation hw snsrID s).st.adc_errors.last_failed_channel =
        snsrID) ∧
    (hw.configStatus = HAL_OK → hw.startStatus ≠ HAL_OK →
      (analogSensor_operation hw snsrID s).st.raw_LISXXXALH snsrID = ADC_ERROR_START ∧
      (analogSensor_operation hw snsrID s).st.adc_errors.total_errors =
        (s.adc_errors.total_errors + 1) % UINT32_MOD ∧
      (analogSensor_operation hw snsrID s).st.adc_errors.last_error_status =
        hw.startStatus ∧
      (analogSensor_operation hw snsrID s).st.adc_errors.last_failed_channel =
        snsrID) ∧
    (hw.configStatus = HAL_OK → hw.startStatus = HAL_OK → hw.pollStatus ≠ HAL_OK →
      (analogSensor_operation hw snsrID s).st.raw_LISXXXALH snsrID = ADC_ERROR_TIMEOUT ∧
      (analogSensor_operation hw snsrID s).stopCalled = true ∧
      (analogSensor_operation hw snsrID s).st.adc_errors.total_errors =
        (s.adc_errors.total_errors + 1) % UINT32_MOD ∧
      (analogSensor_operation hw snsrID s).st.adc_errors.last_error_status =
        hw.pollStatus ∧
      (analogSensor_operation hw snsrID s).st.adc_errors.last_failed_channel =
        snsrID) ∧
    (hw.configStatus = HAL_OK → hw.startStatus = HAL_OK → hw.pollStatus = HAL_OK →
      (analogSensor_operation hw snsrID s).st.raw_LISXXXALH snsrID = hw.value ∧
      (analogSensor_operation hw snsrID s).stopCalled = true ∧
      (analogSensor_operation hw snsrID s).st.adc_errors = s.adc_errors) := by
  unfold analogSensor_operation
  rw [if_neg (not_le.mpr h)]
  refine ⟨fun hc => ?_, fun hc hs => ?_, fun hc hs hp => ?_, fun hc hs hp => ?_⟩
  · rw [if_pos hc]
    exact ⟨by simp [updateArr], rfl, rfl, rfl⟩
  · rw [if_neg (by simp [hc]), if_pos hs]
    exact ⟨by simp [updateArr], rfl, rfl, rfl⟩
  · rw [if_neg (by simp [hc]), if_neg (by simp [hs]), if_pos hp]
    exact ⟨by simp [updateArr], rfl, rfl, rfl, rfl⟩
  · rw [if_neg (by simp [hc]), if_neg (by simp [hs]), if_neg (by simp [hp])]
    exact ⟨by simp [updateArr], rfl, rfl⟩

/-- Witness for C5: a failing channel-configuration call on channel 0 of a
fresh state stores the config sentinel and records the failure. -/
theorem C5_witness :
    (analogSensor_operation hwCfgFail 0 sAdc0).st.raw_LISXXXALH 0 = ADC_ERROR_CONFIG ∧
    (analogSensor_operation hwCfgFail 0 sAdc0).st.adc_errors.total_errors =
      (sAdc0.adc_errors.total_errors + 1) % UINT32_MOD ∧
    (analogSensor_operation hwCfgFail 0 sAdc0).st.adc_errors.last_error_status =
      hwCfgFail.configStatus ∧
    (analogSensor_operation hwCfgFail 0 sAdc0).st.adc_errors.last_failed_channel = 0 :=
  (C5_blocking_acquire_outcomes hwCfgFail 0 sAdc0 (by decide)).1 (by decide)

/-- C6: every out-of-range channel id is rejected by both engines without a
slot write: the blocking `analogSensor_operation` leaves every index of
`raw_LISXXXALH` unchanged (in particular it never writes past slot 5) while
recording the rejection, and the asynchronous `analogSensor_getChannelValue`
returns the `InvalidChannel` code from any DMA state. -/
theorem C6_out_of_range_never_writes (hw : HWOracle) (channelId : Nat)
    (s : AdcModuleState) (ds : DmaModuleState)
    (h : ADC_CONVERSIONS_CHANNEL_COUNT ≤ channelId) :
    (∀ i, (analogSensor_operation hw channelId s).st.raw_LISXXXALH i =
      s.raw_LISXXXALH i) ∧
    (analogSensor_operation hw channelId s).st.adc_errors.last_error_status =
      HAL_ERROR ∧
    (analogSensor_operation hw channelId s).st.adc_errors.last_failed_channel =
      channelId ∧
    analogSensor_getChannelValue channelId ds = ADC_DMA_ERROR_INVALID_CHANNEL := by
  unfold analogSensor_operation analogSensor_getChannelValue
  rw [if_pos h]
  refine ⟨fun i => rfl, rfl, rfl, ?_⟩
  rw [if_pos (show ADC_DMA_CHANNEL_COUNT ≤ channelId from h)]

/-- Witness for C6 at channel id 6 on concrete states of both engines. -/
theorem C6_witness :
    (∀ i, (analogSensor_operation (hwAllOK 7) 6 sAdc0).st.raw_LISXXXALH i =
      sAdc0.raw_LISXXXALH i) ∧
    (analogSensor_operation (hwAllOK 7) 6 sAdc0).st.adc_errors.last_error_status =
      HAL_ERROR ∧
    (analogSensor_operation (hwAllOK 7) 6 sAdc0).st.adc_errors.last_failed_channel =
      6 ∧
    analogSensor_getChannelValue 6 sCompleteSample = ADC_DMA_ERROR_INVALID_CHANNEL :=
  C6_out_of_range_never_writes (hwAllOK 7) 6 sAdc0 sCompleteSample (by decide)

/-- Case analysis helper: one blocking acquisition either leaves the error
tracker untouched (the success path) or replaces it by a `recordError` for
its own channel id. -/
lemma operation_errors_cases (hw : HWOracle) (snsrID : Nat) (s : AdcModuleState) :
    (analogSensor_operation hw snsrID s).st.adc_errors = s.adc_errors ∨
    ∃ status, (analogSensor_operation hw snsrID s).st.adc_errors =
      recordError status snsrID s.adc_errors := by
  unfold analogSensor_operation
  split
  · exact Or.inr ⟨HAL_ERROR, rfl⟩
  · split
    · exact Or.inr ⟨hw.configStatus, rfl⟩
    · split
      · exact Or.inr ⟨hw.startStatus, rfl⟩
      · split
        · exact Or.inr ⟨hw.pollStatus, rfl⟩
        · exact Or.inl rfl

/-- Preservation helper: if the error counter is not about to wrap, one
blocking acquisition preserves the tracker invariant. -/
lemma operation_preserves_ErrInvariant (hw : HWOracle) (snsrID : Nat)
    (s : AdcModuleState) (hI : ErrInvariant s.adc_errors)
    (hlt : s.adc_errors.total_errors + 1 < UINT32_MOD) :
    ErrInvariant (analogSensor_operation hw snsrID s).st.adc_errors := by
  rcases operation_errors_cases hw snsrID s with hcase | ⟨status, hcase⟩
  · rw [hcase]; exact hI
  · rw [hcase]
    intro h0
    exfalso
    simp only [recordError] at h0
    rw [Nat.mod_eq_of_lt hlt] at h0
    omega

/-- Monotonicity helper: one blocking acquisition raises the error total by
at most one. -/
lemma operation_total_le (hw : HWOracle) (snsrID : Nat) (s : AdcModuleState) :
    (analogSensor_operation hw snsrID s).st.adc_errors.total_errors ≤
      s.adc_errors.total_errors + 1 := by
  rcases operation_errors_cases hw snsrID s with hcase | ⟨status, hcase⟩
  · rw [hcase]; omega
  · rw [hcase]
    simp only [recordError]
    exact Nat.mod_le _ _

/-- Fold helper: running blocking acquisitions over a list of channel ids
preserves the tracker invariant and raises the error total by at most the
list length, provided the counter has room for that many increments. -/
lemma foldl_preserves_ErrInvariant (hw : Nat → HWOracle) :
    ∀ (l : List Nat) (s : AdcModuleState),
      ErrInvariant s.adc_errors →
      s.adc_errors.total_errors + l.length < UINT32_MOD →
      ErrInvariant
        ((l.foldl (fun st i => (analogSensor_operation (hw i) i st).st) s).adc_errors) ∧
      (l.foldl (fun st i =>
        (analogSensor_operation (hw i) i st).st) s).adc_errors.total_errors ≤
        s.adc_errors.total_errors + l.length := by
  intro l
  induction l with
  | nil => exact fun s hI _ => ⟨hI, Nat.le_refl _⟩
  | cons a t ih =>
    intro s hI hlt
    simp only [List.foldl_cons, List.length_cons] at hlt ⊢
    have h1 : s.adc_errors.total_errors + 1 < UINT32_MOD := by omega
    have hI1 := operation_preserves_ErrInvariant (hw a) a s hI h1
    have hle := operation_total_le (hw a) a s
    have hrec := ih ((analogSensor_operation (hw a) a s).st) hI1 (by omega)
    exact ⟨hrec.1, by omega⟩

/-- C8 counterexample: a state whose 32-bit error counter sits at
2^32 − 1 satisfies the invariant (its total is nonzero), yet one more
rejected acquisition wraps the counter to 0 while recording channel 6 as
the last failed channel — so the invariant is not preserved by
`analogSensor_operation` as the claim states. -/
theorem C8_counterexample :
    ErrInvariant sWrap.adc_errors ∧
    ¬ ErrInvariant ((analogSensor_operation (hwAllOK 0) 6 sWrap).st.adc_errors) := by
  constructor
  · intro h0
    exact absurd h0 (by decide)
  · intro hI
    have h0 : (analogSensor_operation (hwAllOK 0) 6 sWrap).st.adc_errors.total_errors
        = 0 := by decide
    exact absurd (hI h0) (by decide)

/-- C8 (amended): the tracker invariant `total_errors = 0 →
last_failed_channel = 0xFF` holds in the initial state and is preserved by
`analogSensor_operation`, `analogSensor_operation_all_channels` and
`analogSensor_resetErrors` from every state in which the 32-bit error
counter has room for the increments the call can make (no wraparound); the
accessors `analogSensor_getErrorCount` and `analogSensor_getErrors` are
pure reads and cannot disturb it. -/
theorem C8_amended_tracker_invariant (hwa : HWOracle) (hw : Nat → HWOracle)
    (s : AdcModuleState) (snsrID n : Nat)
    (hInv : ErrInvariant s.adc_errors)
    (hNoWrap : s.adc_errors.total_errors + 6 < UINT32_MOD) :
    ErrInvariant adc_errors_init ∧
    ErrInvariant (analogSensor_operation hwa snsrID s).st.adc_errors ∧
    ErrInvariant (analogSensor_operation_all_channels hw n s).adc_errors ∧
    ErrInvariant (analogSensor_resetErrors s).adc_errors := by
  refine ⟨fun _ => rfl, ?_, ?_, fun _ => rfl⟩
  · exact operation_preserves_ErrInvariant hwa snsrID s hInv (by omega)
  · unfold analogSensor_operation_all_channels
    have hlen : (List.range (min n ADC_CONVERSIONS_CHANNEL_COUNT)).length ≤ 6 := by
      simp [List.length_range, ADC_CONVERSIONS_CHANNEL_COUNT]
    exact (foldl_preserves_ErrInvariant hw
      (List.range (min n ADC_CONVERSIONS_CHANNEL_COUNT)) s hInv (by omega)).1

/-- Witness for C8 (amended) on a fresh state with an all-success oracle. -/
theorem C8_amended_witness :
    ErrInvariant adc_errors_init ∧
    ErrInvariant (analogSensor_operation (hwAllOK 0) 0 sAdc0).st.adc_errors ∧
    ErrInvariant (analogSensor_operation_all_channels (fun _ => hwAllOK 0) 6
      sAdc0).adc_errors ∧
    ErrInvariant (analogSensor_resetErrors sAdc0).adc_errors :=
  C8_amended_tracker_invariant (hwAllOK 0) (fun _ => hwAllOK 0) sAdc0 0 6
    (fun _ => rfl) (by decide)

/-- C9: the validated and legacy variants of `analogSensor_operation`
disagree on the out-of-range id 6: the validated variant leaves every index
of `raw_LISXXXALH` unchanged, while the legacy variant selects ADC channel 6
and stores the converted value at index 6 of `raw_LISXXXALH` — an index at
which the array has no slot (its slots are 0..5). -/
theorem C9_variants_disagree_out_of_range :
    (∀ i, (analogSensor_operation (hwAllOK 1234) 6 sAdc0).st.raw_LISXXXALH i =
      sAdc0.raw_LISXXXALH i) ∧
    legacySelectChannel 6 = 6 ∧
    (analogSensor_operation_legacy (hwAllOK 1234) 6 sAdc0.raw_LISXXXALH).raw 6 =
      1234 ∧
    sAdc0.raw_LISXXXALH 6 ≠ 1234 ∧
    ADC_CONVERSIONS_CHANNEL_COUNT ≤ 6 :=
  ⟨fun i => rfl, by decide, rfl, by decide, by decide⟩

/-- C10 counterexample: calling `analogSensor_operation` with the
out-of-range id 0xFF from a state whose error counter is 2^32 − 1 wraps the
counter to 0 — so the call neither increments the total by one (in the
order of naturals) nor leaves it positive, refuting the claim at this
input. -/
theorem C10_counterexample :
    (analogSensor_operation (hwAllOK 0) 255 sWrap).st.adc_errors.total_errors = 0 ∧
    (analogSensor_operation (hwAllOK 0) 255 sWrap).st.adc_errors.total_errors ≠
      sWrap.adc_errors.total_errors + 1 ∧
    ¬ 0 < (analogSensor_operation (hwAllOK 0) 255 sWrap).st.adc_errors.total_errors
    := by
  refine ⟨by decide, by decide, by decide⟩

/-- C10 (amended): for every out-of-range id, `analogSensor_operation`
bumps `total_errors` by one modulo 2^32, sets `last_error_status` to
`HAL_ERROR` and `last_failed_channel` to the offending id itself; in
particular, with id 0xFF and a counter that is not about to wrap, the call
leaves `last_failed_channel` equal to 0xFF — the code otherwise reserved as
the "none" sentinel — while `total_errors` is positive. -/
theorem C10_amended_invalid_id_recorded (hw : HWOracle) (snsrID : Nat)
    (s : AdcModuleState) (h : ADC_CONVERSIONS_CHANNEL_COUNT ≤ snsrID) :
    (analogSensor_operation hw snsrID s).st.adc_errors.total_errors =
      (s.adc_errors.total_errors + 1) % UINT32_MOD ∧
    (analogSensor_operation hw snsrID s).st.adc_errors.last_error_status =
      HAL_ERROR ∧
    (analogSensor_operation hw snsrID s).st.adc_errors.last_failed_channel =
      snsrID ∧
    (snsrID = 0xFF → s.adc_errors.total_errors + 1 < UINT32_MOD →
      (analogSensor_operation hw snsrID s).st.adc_errors.last_failed_channel =
        0xFF ∧
      0 < (analogSensor_operation hw snsrID s).st.adc_errors.total_errors) := by
  unfold analogSensor_operation
  rw [if_pos h]
  refine ⟨rfl, rfl, rfl, fun hID hlt => ⟨hID ▸ rfl, ?_⟩⟩
  simp only [recordError]
  rw [Nat.mod_eq_of_lt hlt]
  omega

/-- Witness for C10 (amended) calling id 0xFF on a fresh state. -/
theorem C10_amended_witness :
    (analogSensor_operation (hwAllOK 0) 255 sAdc0).st.adc_errors.total_errors =
      (sAdc0.adc_errors.total_errors + 1) % UINT32_MOD ∧
    (analogSensor_operation (hwAllOK 0) 255 sAdc0).st.adc_errors.last_error_status =
      HAL_ERROR ∧
    (analogSensor_operation (hwAllOK 0) 255 sAdc0).st.adc_errors.last_failed_channel =
      255 ∧
    (255 = 0xFF → sAdc0.adc_errors.total_errors + 1 < UINT32_MOD →
      (analogSensor_operation (hwAllOK 0) 255 sAdc0).st.adc_errors.last_failed_channel
        = 0xFF ∧
      0 < (analogSensor_operation (hwAllOK 0) 255 sAdc0).st.adc_errors.total_errors) :=
  C10_amended_invalid_id_recorded (hwAllOK 0) 255 sAdc0 (by decide)
